import Mathlib

/-!
Verification of the submodule update orchestrator and production quality
gates of this repository.

The development shallowly embeds the two central source files:
* `scripts/safe-update.js` (class `SafeSubmoduleUpdater`): version
  classification, update strategies, the update state machine with its
  rollback stack, and the batch scheduler;
* the quality-gates module (class `ProductionQualityGates`): the five
  weighted gates, per-gate scoring, score aggregation and the deploy
  decision.

JavaScript numbers are modelled as rationals (`ℚ`) so that the exact
arithmetic of the scoring formulas can be reasoned about; counts are `ℕ`.
Stateful git operations are modelled by explicit state passing over a
`World` record (submodule HEAD, parent commit log, rollback stack), with
external facts (filesystem probes, tag resolution, audit output, gate
outcomes) supplied by an `Env` record.  Thrown JavaScript errors are
modelled with `Except String`.
-/

namespace ProductionQualityGates

/-- One static gate descriptor, as in the `gates` table built by the
`ProductionQualityGates` constructor. -/
structure Gate where
  name : String
  weight : ℚ
  critical : Bool
deriving DecidableEq

/-- The five gates from the constructor:
Security(25, critical), Stability(20, critical), Performance(15, non-critical),
Contract(20, critical), Deployment(20, critical). -/
def gates : List Gate :=
  [⟨"Security Gate", 25, true⟩,
   ⟨"Stability Gate", 20, true⟩,
   ⟨"Performance Gate", 15, false⟩,
   ⟨"Contract Gate", 20, true⟩,
   ⟨"Deployment Gate", 20, true⟩]

/-- `this.minimumScore` from the constructor. -/
def minimumScore : ℚ := 80

/-- `this.criticalGateThreshold` from the constructor. -/
def criticalGateThreshold : ℚ := 90

/-- ASCII lower-casing of one character. -/
def charLower (ch : Char) : Char :=
  if 65 ≤ ch.toNat ∧ ch.toNat ≤ 90 then Char.ofNat (ch.toNat + 32) else ch

/-- JavaScript `String.prototype.toLowerCase` (ASCII fragment used here). -/
def jsToLower (s : String) : String := ⟨s.data.map charLower⟩

/-- Replace the first occurrence of `pat` (non-empty) in a character list. -/
def replaceFirstChars (pat repl : List Char) : List Char → List Char
  | [] => []
  | c :: cs =>
    if pat.isPrefixOf (c :: cs) then repl ++ (c :: cs).drop pat.length
    else c :: replaceFirstChars pat repl cs

/-- JavaScript `String.prototype.replace` with a plain-string pattern:
replaces the first occurrence only. -/
def jsReplaceFirst (s pat repl : String) : String :=
  ⟨replaceFirstChars pat.data repl.data s.data⟩

/-- `gate.name.toLowerCase().replace(' gate', '')`, the key under which a
gate result is stored in `evaluation.gateResults`. -/
def gateKeyOf (name : String) : String := jsReplaceFirst (jsToLower name) (" gate") ("")

/-- One gate evaluation result (the fields of the per-gate objects that the
aggregation logic reads; the heterogeneous `checks` map is carried by the
individual evaluators where needed). -/
structure GateResult where
  name : String
  score : ℚ
  passed : Bool
  issues : List String
deriving DecidableEq

/-- The `evaluation.gateResults` object: one optional slot per gate key,
`none` meaning the key was never assigned. -/
structure GateResults where
  security : Option GateResult
  stability : Option GateResult
  performance : Option GateResult
  contract : Option GateResult
  deployment : Option GateResult
deriving DecidableEq

/-- Property lookup `gateResults[gateKey]` on the evaluation record. -/
def GateResults.lookup (r : GateResults) (k : String) : Option GateResult :=
  if k = "security" then r.security
  else if k = "stability" then r.stability
  else if k = "performance" then r.performance
  else if k = "contract" then r.contract
  else if k = "deployment" then r.deployment
  else none

/-- The accumulation loop of `calculateOverallScore`:
`totalScore += (result.score * gate.weight) / 100; totalWeight += gate.weight`
for every gate whose result is present. -/
def calcLoop (results : String → Option GateResult) :
    List Gate → ℚ × ℚ → ℚ × ℚ
  | [], acc => acc
  | g :: rest, (ts, tw) =>
    match results (gateKeyOf g.name) with
    | some r => calcLoop results rest (ts + r.score * g.weight / 100, tw + g.weight)
    | none => calcLoop results rest (ts, tw)

/-- `calculateOverallScore(gateResults)`: weighted accumulation over
`this.gates`, then `totalWeight > 0 ? (totalScore / totalWeight) * 100 : 0`. -/
def calculateOverallScore (gs : List Gate) (results : String → Option GateResult) : ℚ :=
  let acc := calcLoop results gs (0, 0)
  if 0 < acc.2 then acc.1 / acc.2 * 100 else 0

/-- Specification-side helper: the summed weight of the gates that actually
produced a result (missing gates excluded). -/
def presentWeight (gs : List Gate) (results : String → Option GateResult) : ℚ :=
  match gs with
  | [] => 0
  | g :: rest =>
    (match results (gateKeyOf g.name) with
     | some _ => g.weight
     | none => 0) + presentWeight rest results

/-- Specification-side helper: `Σ (gate.score × gate.weight)` over the gates
that actually produced a result (missing gates excluded). -/
def presentWeightedScore (gs : List Gate) (results : String → Option GateResult) : ℚ :=
  match gs with
  | [] => 0
  | g :: rest =>
    (match results (gateKeyOf g.name) with
     | some r => r.score * g.weight
     | none => 0) + presentWeightedScore rest results

/-- The `evaluation` record built by `evaluateServiceGates`. -/
structure Evaluation where
  overallScore : ℚ
  canDeploy : Bool
  gateResults : GateResults
  criticalFailures : List String
  warnings : List String
deriving DecidableEq

/-- The critical-gate loop of `canServiceDeploy`: for each gate of
`this.gates`, if it is critical and its result is missing or not passed,
return false. -/
def criticalLoop (gs : List Gate) (r : GateResults) : Bool :=
  match gs with
  | [] => true
  | g :: rest =>
    if g.critical then
      match r.lookup (gateKeyOf g.name) with
      | none => false
      | some res => if res.passed then criticalLoop rest r else false
    else criticalLoop rest r

/-- `canServiceDeploy(evaluation)`: false when `overallScore < minimumScore`,
otherwise every critical gate must have a present, passed result. -/
def canServiceDeploy (e : Evaluation) : Bool :=
  if e.overallScore < minimumScore then false
  else criticalLoop gates e.gateResults

/-- The boolean/numeric facts feeding `evaluateSecurityGate` (the
`gate.checks` record; `hasSecurityAudit` is derived as
`vulnerabilityCount === 0` inside the evaluator). -/
structure SecurityChecks where
  hasSecurityPolicy : Bool
  secureGitignore : Bool
  hasEnvExample : Bool
  noHardcodedSecrets : Bool
  vulnerabilityCount : ℕ
  httpsEnforced : Bool
  hasAuth : Bool
deriving DecidableEq

/-- `collectSecurityIssues(checks)` — the source stubs this to `[]`
("Mock for now"). -/
def collectSecurityIssues (_c : SecurityChecks) : List String := []

/-- `evaluateSecurityGate`: base score is the count of true checks among the
seven booleans times `100 / 7`; a penalty of `min(vulnerabilityCount * 5, 30)`
is subtracted and the result floored at 0; `passed` is
`score >= criticalGateThreshold`. -/
def evaluateSecurityGate (c : SecurityChecks) : GateResult :=
  let hasSecurityAudit : Bool := c.vulnerabilityCount == 0
  let checkList : List Bool :=
    [c.hasSecurityPolicy, c.secureGitignore, c.hasEnvExample,
     c.noHardcodedSecrets, hasSecurityAudit, c.httpsEnforced, c.hasAuth]
  let baseScore : ℚ := ((checkList.filter (fun b => b)).length : ℚ) * (100 / 7)
  let vulnPenalty : ℚ := min ((c.vulnerabilityCount : ℚ) * 5) 30
  let score : ℚ := max 0 (baseScore - vulnPenalty)
  let passed : Bool := decide (criticalGateThreshold ≤ score)
  { name := "Security Gate", score := score, passed := passed,
    issues := if passed then [] else collectSecurityIssues c }

/-- Specification-side count of the seven boolean security checks that hold
(the fifth, "zero vulnerabilities", is `vulnerabilityCount = 0`). -/
def securityCheckCount (c : SecurityChecks) : ℕ :=
  (if c.hasSecurityPolicy then 1 else 0) +
  (if c.secureGitignore then 1 else 0) +
  (if c.hasEnvExample then 1 else 0) +
  (if c.noHardcodedSecrets then 1 else 0) +
  (if c.vulnerabilityCount = 0 then 1 else 0) +
  (if c.httpsEnforced then 1 else 0) +
  (if c.hasAuth then 1 else 0)

/-- The outcomes of the five per-gate evaluators as seen from
`evaluateServiceGates`; `Except.error` models a thrown exception inside an
evaluator (each call sits inside the surrounding try block). -/
structure ServiceGateEnv where
  security : Except String GateResult
  stability : Except String GateResult
  performance : Except String GateResult
  contract : Except String GateResult
  deployment : Except String GateResult

/-- The gate results assigned so far, turned into `Object.entries` order
(insertion order: security, stability, performance, contract, deployment). -/
def entriesOf (r : GateResults) : List (String × GateResult) :=
  (match r.security with | some x => [(("security"), x)] | none => []) ++
  (match r.stability with | some x => [(("stability"), x)] | none => []) ++
  (match r.performance with | some x => [(("performance"), x)] | none => []) ++
  (match r.contract with | some x => [(("contract"), x)] | none => []) ++
  (match r.deployment with | some x => [(("deployment"), x)] | none => [])

/-- One step of `collectIssues`: route a non-empty issue list either to
`criticalFailures` (critical gate that failed) or to `warnings`. -/
def collectIssuesStep (e : Evaluation) (entry : String × GateResult) : Evaluation :=
  if entry.2.issues = [] then e
  else
    match gates.find? (fun g => gateKeyOf g.name = entry.1) with
    | some g =>
      if g.critical && !entry.2.passed then
        { e with criticalFailures := e.criticalFailures ++ entry.2.issues }
      else
        { e with warnings := e.warnings ++ entry.2.issues }
    | none => { e with warnings := e.warnings ++ entry.2.issues }

/-- `collectIssues(evaluation)`: fold over the entries of `gateResults`. -/
def collectIssues (e : Evaluation) : Evaluation :=
  (entriesOf e.gateResults).foldl collectIssuesStep e

/-- The fresh `evaluation` record at the top of `evaluateServiceGates`. -/
def initialEvaluation : Evaluation :=
  { overallScore := 0, canDeploy := false,
    gateResults := ⟨none, none, none, none, none⟩,
    criticalFailures := [], warnings := [] }

/-- `evaluateServiceGates`: evaluate the five gates in order inside a try
block; on the first thrown error, push
`"Quality gate evaluation failed: " ++ message` onto `criticalFailures` and
return the evaluation as it stands; otherwise compute the overall score, the
deploy decision and collect issues.  Total: it never throws. -/
def evaluateServiceGates (env : ServiceGateEnv) : Evaluation :=
  let ev := initialEvaluation
  match env.security with
  | .error e => { ev with criticalFailures := ev.criticalFailures ++ ["Quality gate evaluation failed: " ++ e] }
  | .ok rSec =>
  let ev := { ev with gateResults := { ev.gateResults with security := some rSec } }
  match env.stability with
  | .error e => { ev with criticalFailures := ev.criticalFailures ++ ["Quality gate evaluation failed: " ++ e] }
  | .ok rSta =>
  let ev := { ev with gateResults := { ev.gateResults with stability := some rSta } }
  match env.performance with
  | .error e => { ev with criticalFailures := ev.criticalFailures ++ ["Quality gate evaluation failed: " ++ e] }
  | .ok rPer =>
  let ev := { ev with gateResults := { ev.gateResults with performance := some rPer } }
  match env.contract with
  | .error e => { ev with criticalFailures := ev.criticalFailures ++ ["Quality gate evaluation failed: " ++ e] }
  | .ok rCon =>
  let ev := { ev with gateResults := { ev.gateResults with contract := some rCon } }
  match env.deployment with
  | .error e => { ev with criticalFailures := ev.criticalFailures ++ ["Quality gate evaluation failed: " ++ e] }
  | .ok rDep =>
  let ev := { ev with gateResults := { ev.gateResults with deployment := some rDep } }
  let ev := { ev with overallScore := calculateOverallScore gates ev.gateResults.lookup }
  let ev := { ev with canDeploy := canServiceDeploy ev }
  collectIssues ev

/-- The first exception raised among the five gate evaluations, in the order
the try block runs them. -/
def firstGateError (env : ServiceGateEnv) : Option String :=
  match env.security with
  | .error e => some e
  | .ok _ =>
  match env.stability with
  | .error e => some e
  | .ok _ =>
  match env.performance with
  | .error e => some e
  | .ok _ =>
  match env.contract with
  | .error e => some e
  | .ok _ =>
  match env.deployment with
  | .error e => some e
  | .ok _ => none

end ProductionQualityGates

namespace SafeSubmoduleUpdater

/-- One entry of the `updateStrategies` table.  The `patch` and `minor`
entries omit `requiresCompatibilityTest` in the source (reading an absent
property yields `undefined`, i.e. false). -/
structure UpdateStrategy where
  riskLevel : String
  requiresApproval : Bool
  requiresCompatibilityTest : Bool
deriving DecidableEq

/-- The constructor's `updateStrategies` object, as a keyed lookup; indexing
with any other string yields `undefined` (`none`). -/
def updateStrategies : String → Option UpdateStrategy
  | "patch" => some ⟨"low", false, false⟩
  | "minor" => some ⟨"medium", true, false⟩
  | "major" => some ⟨"high", true, true⟩
  | _ => none

/-- Consume one or more leading decimal digits (the `\d+` of the semver
regex), returning their `parseInt` value and the rest of the input. -/
def takeDigits (cs : List Char) : Option (ℕ × List Char) :=
  let ds := cs.takeWhile Char.isDigit
  if ds.isEmpty then none
  else some (ds.foldl (fun acc ch => acc * 10 + (ch.toNat - 48)) 0, cs.dropWhile Char.isDigit)

/-- The pattern `^v?(\d+)\.(\d+)\.(\d+)` shared by `isSemanticVersion` and
`parseSemanticVersion`: an optional leading `v`, then three dot-separated
integer components; any trailing characters are ignored (the regex is not
anchored at the end). -/
def parseSemVer (cs0 : List Char) : Option (ℕ × ℕ × ℕ) :=
  let cs :=
    match cs0 with
    | 'v' :: rest => rest
    | _ => cs0
  match takeDigits cs with
  | none => none
  | some (maj, cs1) =>
    match cs1 with
    | '.' :: cs2 =>
      match takeDigits cs2 with
      | none => none
      | some (mi, cs3) =>
        match cs3 with
        | '.' :: cs4 =>
          match takeDigits cs4 with
          | none => none
          | some (pa, _) => some (maj, mi, pa)
        | _ => none
    | _ => none

/-- `isSemanticVersion(version)`: `/^v?\d+\.\d+\.\d+/.test(version)`. -/
def isSemanticVersion (s : String) : Bool := (parseSemVer s.data).isSome

/-- `parseSemanticVersion(version)`: match the pattern and `parseInt` the
three components; `none` models the thrown `Invalid semantic version`. -/
def parseSemanticVersion (s : String) : Option (ℕ × ℕ × ℕ) := parseSemVer s.data

/-- `determineUpdateType`: `currentVersion` is the (possibly null) output of
`getCurrentVersion`; a missing or non-semver current version, or a non-semver
target, classifies conservatively as `"major"`; otherwise the parsed triples
are compared major, then minor, then patch, defaulting to `"patch"`. -/
def determineUpdateType (currentVersion : Option String) (targetVersion : String) : String :=
  match currentVersion with
  | none => "major"
  | some cv =>
    if !isSemanticVersion cv || !isSemanticVersion targetVersion then "major"
    else
      match parseSemanticVersion cv, parseSemanticVersion targetVersion with
      | some c, some t =>
        if t.1 > c.1 then "major"
        else if t.2.1 > c.2.1 then "minor"
        else if t.2.2 > c.2.2 then "patch"
        else "patch"
      | _, _ => "major"

/-- A rollback point as built by `createRollbackPoint` (the wall-clock
timestamp field carries no program-visible information and is omitted). -/
structure RollbackPoint where
  submoduleCommit : String
  parentCommit : String
  branch : String
deriving DecidableEq

/-- The mutable git state the updater touches: the submodule's HEAD, the
parent repository's commit log (head = HEAD; `git reset --hard HEAD~1` drops
the head), the current branch name, and `this.rollbackStack` (push appends,
pop removes the last element). -/
structure World where
  moduleRef : String
  parentLog : List String
  branch : String
  rollbackStack : List RollbackPoint
deriving DecidableEq

/-- `git rev-parse HEAD` in the parent repository. -/
def World.parentHead (w : World) : String := w.parentLog.headD ""

/-- External facts consumed by one update attempt: filesystem probes, git
queries inside the submodule, and the collaborator outputs read during
post-update validation. -/
structure Env where
  moduleExists : Bool
  hasUncommitted : Bool
  tagExists : String → Bool
  revParse : String → String
  checkoutResult : String → String
  describeVersion : Option String
  criticalIssues : List String
  breakingChanges : List String
  hasPackageJson : Bool
  buildFails : Bool
  buildErrorMessage : String
  freshCommit : String

/-- The `updateContext` record of one update attempt. -/
structure UpdateContext where
  submodule : String
  targetVersion : String
  approved : Bool
  currentCommit : Option String
  targetCommit : Option String
  updateType : Option String
  rollbackPoint : Option RollbackPoint
deriving DecidableEq

/-- The context literal built at the top of `updateSubmodule`; the source
never sets an `approved` property on it, so reading it yields `undefined`
(false). -/
def initialContext (submodulePath targetVersion : String) : UpdateContext :=
  { submodule := submodulePath, targetVersion := targetVersion, approved := false,
    currentCommit := none, targetCommit := none, updateType := none,
    rollbackPoint := none }

/-- `preUpdateValidation`: existence and cleanliness checks, snapshot of the
current commit, target tag resolution, update-type classification and the
approval gate.  The returned context carries the mutations made before a
throw (the source mutates `updateContext` in place). -/
def preUpdateValidation (env : Env) (ctx : UpdateContext) (w : World) :
    Except String Unit × UpdateContext :=
  if !env.moduleExists then
    (.error ("Submodule " ++ ctx.submodule ++ " does not exist"), ctx)
  else if env.hasUncommitted then
    (.error ("Submodule " ++ ctx.submodule ++ " has uncommitted changes"), ctx)
  else
    let ctx := { ctx with currentCommit := some w.moduleRef }
    if !env.tagExists ctx.targetVersion then
      (.error ("Target version " ++ ctx.targetVersion ++ " does not exist in " ++ ctx.submodule), ctx)
    else
      let ctx := { ctx with targetCommit := some (env.revParse ctx.targetVersion) }
      let ut := determineUpdateType env.describeVersion ctx.targetVersion
      let ctx := { ctx with updateType := some ut }
      match updateStrategies ut with
      | none => (.error ("TypeError: Cannot read properties of undefined"), ctx)
      | some strategy =>
        if strategy.requiresApproval && !ctx.approved then
          (.error (ut ++ " update requires approval"), ctx)
        else
          (.ok (), ctx)

/-- `createRollbackPoint`: record the submodule and parent references and the
branch, set it on the context and push it onto `this.rollbackStack`. -/
def createRollbackPoint (ctx : UpdateContext) (w : World) : UpdateContext × World :=
  let p : RollbackPoint :=
    { submoduleCommit := ctx.currentCommit.getD "",
      parentCommit := w.parentHead,
      branch := w.branch }
  ({ ctx with rollbackPoint := some p },
   { w with rollbackStack := w.rollbackStack ++ [p] })

/-- `performUpdate`: check out the target version in the submodule, then
verify the resulting HEAD equals the resolved target commit. -/
def performUpdate (env : Env) (ctx : UpdateContext) (w : World) :
    Except String Unit × World :=
  let w := { w with moduleRef := env.checkoutResult ctx.targetVersion }
  if some w.moduleRef ≠ ctx.targetCommit then
    (.error ("Checkout verification failed: expected " ++ ctx.targetCommit.getD "" ++ ", got " ++ w.moduleRef), w)
  else
    (.ok (), w)

/-- `postUpdateValidation`: quality gates (any critical issue throws), the
compatibility test when the strategy requires it (any breaking change
throws), then build verification when a `package.json` exists. -/
def postUpdateValidation (env : Env) (ctx : UpdateContext) : Except String Unit :=
  if env.criticalIssues ≠ [] then
    .error ("Quality gate failures: " ++ String.intercalate (", ") env.criticalIssues)
  else
    let compat : Except String Unit :=
      match ctx.updateType with
      | none => .error ("TypeError: Cannot read properties of undefined")
      | some ut =>
        match updateStrategies ut with
        | none => .error ("TypeError: Cannot read properties of undefined")
        | some strategy =>
          if strategy.requiresCompatibilityTest then
            if env.breakingChanges ≠ [] then
              .error ("Breaking changes detected: " ++ String.intercalate (", ") env.breakingChanges)
            else .ok ()
          else .ok ()
    match compat with
    | .error e => .error e
    | .ok _ =>
      if env.hasPackageJson && env.buildFails then
        .error ("Build verification failed: " ++ env.buildErrorMessage)
      else .ok ()

/-- `updateParentRepository`: stage the submodule and commit, advancing the
parent HEAD by one fresh commit. -/
def updateParentRepository (env : Env) (w : World) : World :=
  { w with parentLog := env.freshCommit :: w.parentLog }

/-- `rollbackUpdate`: fail if the context has no rollback point; otherwise
check out the snapshotted submodule commit, reset the parent by one commit
iff its HEAD differs from the snapshot, and pop `this.rollbackStack`. -/
def rollbackUpdate (env : Env) (ctx : UpdateContext) (w : World) :
    Except String Unit × World :=
  match ctx.rollbackPoint with
  | none => (.error ("No rollback point available"), w)
  | some p =>
    let w := { w with moduleRef := env.checkoutResult p.submoduleCommit }
    let w :=
      if w.parentHead ≠ p.parentCommit then { w with parentLog := w.parentLog.tail }
      else w
    let w := { w with rollbackStack := w.rollbackStack.dropLast }
    (.ok (), w)

/-- `handleUpdateFailure`: invoke `rollbackUpdate`; a rollback error is
caught and only logged, so the resulting world is returned either way. -/
def handleUpdateFailure (env : Env) (ctx : UpdateContext) (w : World) : World :=
  (rollbackUpdate env ctx w).2

/-- The try block of `updateSubmodule`: pre-validation, rollback point,
update, post-validation, parent commit.  Returns the outcome together with
the context and world as they stand at success or at the throw. -/
def updateAttempt (env : Env) (ctx : UpdateContext) (w : World) :
    Except String Unit × UpdateContext × World :=
  match preUpdateValidation env ctx w with
  | (.error e, ctx) => (.error e, ctx, w)
  | (.ok _, ctx) =>
    let step := createRollbackPoint ctx w
    match performUpdate env step.1 step.2 with
    | (.error e, w) => (.error e, step.1, w)
    | (.ok _, w) =>
      match postUpdateValidation env step.1 with
      | .error e => (.error e, step.1, w)
      | .ok _ => (.ok (), step.1, updateParentRepository env w)

/-- `updateSubmodule`: run the attempt; on a throw, run
`handleUpdateFailure` and rethrow the original error. -/
def updateSubmodule (env : Env) (submodulePath targetVersion : String) (w : World) :
    Except String UpdateContext × World :=
  match updateAttempt env (initialContext submodulePath targetVersion) w with
  | (.ok _, ctx, w) => (.ok ctx, w)
  | (.error e, ctx, w) => (.error e, handleUpdateFailure env ctx w)

/-- One request of a batch update. -/
structure UpdateRequest where
  submodule : String
  targetVersion : String
deriving DecidableEq

/-- `determineUpdateTypeSync(update)`: the source's placeholder, which
ignores the request and returns `'medium'`. -/
def determineUpdateTypeSync (_u : UpdateRequest) : String := "medium"

/-- The `riskOrder` table `{low: 1, medium: 2, high: 3}` of the batch sort
comparator (total on the three risk levels actually stored in strategies). -/
def riskOrderVal : String → ℕ
  | "low" => 1
  | "medium" => 2
  | "high" => 3
  | _ => 0

/-- The comparator passed to `updates.sort`:
`riskOrder[strategies[typeof a].riskLevel] - riskOrder[strategies[typeof b].riskLevel]`.
`none` models the `TypeError` thrown when the strategy lookup yields
`undefined` (as it does for the placeholder type `'medium'`). -/
def riskCompare (a b : UpdateRequest) : Option ℤ :=
  (updateStrategies (determineUpdateTypeSync a)).bind fun sa =>
  (updateStrategies (determineUpdateTypeSync b)).bind fun sb =>
  some ((riskOrderVal sa.riskLevel : ℤ) - (riskOrderVal sb.riskLevel : ℤ))

/-- Stable insertion for the model of `Array.prototype.sort`. -/
def insertLe (le : UpdateRequest → UpdateRequest → Bool) (x : UpdateRequest) :
    List UpdateRequest → List UpdateRequest
  | [] => [x]
  | y :: ys => if le x y then x :: y :: ys else y :: insertLe le x ys

/-- Stable insertion sort for the model of `Array.prototype.sort`. -/
def sortLe (le : UpdateRequest → UpdateRequest → Bool) :
    List UpdateRequest → List UpdateRequest
  | [] => []
  | x :: xs => insertLe le x (sortLe le xs)

/-- `updates.sort(comparator)`: with fewer than two elements the comparator
is never invoked; otherwise the first comparator call either throws (when it
dereferences an `undefined` strategy) or the list is stably sorted by the
comparator's sign. -/
def sortUpdates (updates : List UpdateRequest) : Except String (List UpdateRequest) :=
  match updates with
  | [] => .ok []
  | [u] => .ok [u]
  | u :: v :: _ =>
    match riskCompare u v with
    | none => .error ("TypeError: Cannot read properties of undefined")
    | some _ => .ok (sortLe (fun a b => ((riskCompare a b).getD 0) ≤ 0) updates)

/-- The accumulated results of `batchUpdate`. -/
structure BatchResults where
  successful : List UpdateContext
  failed : List (String × String × String)
  skipped : List UpdateRequest
deriving DecidableEq

/-- The sequential execution loop of `batchUpdate`: each update runs to
completion; a failure is recorded and, with `stopOnError`, stops the loop. -/
def runBatch (envOf : UpdateRequest → Env) (stopOnError : Bool) :
    List UpdateRequest → World → BatchResults × World
  | [], w => (⟨[], [], []⟩, w)
  | u :: rest, w =>
    match updateSubmodule (envOf u) u.submodule u.targetVersion w with
    | (.ok ctx, w1) =>
      let res := runBatch envOf stopOnError rest w1
      ({ res.1 with successful := ctx :: res.1.successful }, res.2)
    | (.error e, w1) =>
      if stopOnError then
        (⟨[], [(u.submodule, u.targetVersion, e)], []⟩, w1)
      else
        let res := runBatch envOf stopOnError rest w1
        ({ res.1 with failed := (u.submodule, u.targetVersion, e) :: res.1.failed }, res.2)

/-- `batchUpdate`: sort the requests by risk, then execute them in order;
an exception from the sort comparator escapes the whole call. -/
def batchUpdate (envOf : UpdateRequest → Env) (updates : List UpdateRequest)
    (stopOnError : Bool) (w : World) : Except String (BatchResults × World) :=
  match sortUpdates updates with
  | .error e => .error e
  | .ok sorted => .ok (runBatch envOf stopOnError sorted w)

end SafeSubmoduleUpdater

namespace ProductionQualityGates

/-- A two-gate table used to exercise the aggregation formula on weights
25 and 75. -/
def exampleGates : List Gate := [⟨"A Gate", 25, false⟩, ⟨"B Gate", 75, false⟩]

/-- Results for `exampleGates`: score 100 at weight 25 and score 50 at
weight 75. -/
def exampleGateResults : String → Option GateResult := fun k =>
  if k = "a" then some ⟨"A Gate", 100, true, []⟩
  else if k = "b" then some ⟨"B Gate", 50, true, []⟩
  else none

/-- A trivially passing gate result used to drive `evaluateServiceGates`. -/
def gateDummy : GateResult := ⟨"Dummy", 0, true, []⟩

/-- A gate environment whose security evaluation throws. -/
def envSG : ServiceGateEnv :=
  ⟨.error ("boom"), .ok gateDummy, .ok gateDummy, .ok gateDummy, .ok gateDummy⟩

end ProductionQualityGates

namespace SafeSubmoduleUpdater

/-- An environment for a major update `v1.0.0 → v2.0.0` whose pre-update
checks all pass. -/
def envMaj : Env :=
  { moduleExists := true, hasUncommitted := false,
    tagExists := fun _ => true, revParse := fun _ => "tcommit",
    checkoutResult := fun r => r, describeVersion := some ("v1.0.0"),
    criticalIssues := [], breakingChanges := [],
    hasPackageJson := false, buildFails := false, buildErrorMessage := "",
    freshCommit := "c1" }

/-- A world with one parent commit and an empty rollback stack. -/
def wMaj : World := ⟨"mcommit", ["p0"], "main", []⟩

/-- An environment for a patch update `v1.0.0 → v1.0.1` that passes
pre-update validation and checkout but fails the post-update quality
gates. -/
def envQF : Env :=
  { moduleExists := true, hasUncommitted := false,
    tagExists := fun _ => true, revParse := fun _ => "t1",
    checkoutResult := fun v => if v = "v1.0.1" then "t1" else v,
    describeVersion := some ("v1.0.0"),
    criticalIssues := ["security"], breakingChanges := [],
    hasPackageJson := false, buildFails := false, buildErrorMessage := "",
    freshCommit := "c1" }

/-- The starting world for the failing patch update. -/
def wQF : World := ⟨"m0", ["p0"], "main", []⟩

/-- The context as it stands when the quality-gate failure is thrown in the
`envQF` scenario. -/
def ctxQF : UpdateContext :=
  { submodule := "svc", targetVersion := "v1.0.1", approved := false,
    currentCommit := some ("m0"), targetCommit := some ("t1"),
    updateType := some ("patch"), rollbackPoint := some ⟨"m0", "p0", "main"⟩ }

/-- The world as it stands when the quality-gate failure is thrown in the
`envQF` scenario: target checked out, rollback point pushed. -/
def wQF1 : World := ⟨"t1", ["p0"], "main", [⟨"m0", "p0", "main"⟩]⟩

/-- A pass-through environment for exercising `rollbackUpdate` alone. -/
def envRB : Env :=
  { moduleExists := true, hasUncommitted := false,
    tagExists := fun _ => true, revParse := fun r => r,
    checkoutResult := fun r => r, describeVersion := none,
    criticalIssues := [], breakingChanges := [],
    hasPackageJson := false, buildFails := false, buildErrorMessage := "",
    freshCommit := "c1" }

/-- The rollback point of the context under test. -/
def pRB : RollbackPoint := ⟨"m0", "p0", "main"⟩

/-- A second rollback point, belonging to some other update, that is still
on the stack. -/
def qRB : RollbackPoint := ⟨"x0", "px", "main"⟩

/-- A context holding rollback point `pRB`. -/
def ctxRB : UpdateContext :=
  { submodule := "svc", targetVersion := "v1.0.0", approved := false,
    currentCommit := some ("m0"), targetCommit := none,
    updateType := none, rollbackPoint := some pRB }

/-- A world in which the stack still holds another update's point `qRB`
underneath `pRB`. -/
def wRB : World := ⟨"m1", ["p0"], "main", [qRB, pRB]⟩

end SafeSubmoduleUpdater

/-- C4: for every pair of version strings in which either string fails the
semantic-version pattern `^v?\d+\.\d+\.\d+`, `determineUpdateType`
classifies conservatively as `"major"` (and, being total, raises no
exception). -/
theorem SafeSubmoduleUpdater.determineUpdateType_conservative
    (cv tv : String)
    (h : SafeSubmoduleUpdater.isSemanticVersion cv = false ∨
         SafeSubmoduleUpdater.isSemanticVersion tv = false) :
    SafeSubmoduleUpdater.determineUpdateType (some cv) tv = "major" := by
  rcases h with h | h <;> simp [SafeSubmoduleUpdater.determineUpdateType, h]

/-- Witness for C4: `"HEAD"` fails the pattern, so classifying
`("HEAD", "v1.0.0")` yields `"major"`. -/
theorem SafeSubmoduleUpdater.determineUpdateType_conservative_witness :
    SafeSubmoduleUpdater.isSemanticVersion ("HEAD") = false ∧
    SafeSubmoduleUpdater.determineUpdateType (some ("HEAD")) ("v1.0.0") = "major" :=
  ⟨by decide, SafeSubmoduleUpdater.determineUpdateType_conservative ("HEAD") ("v1.0.0") (Or.inl (by decide))⟩

/-- C3: for every pair of version strings that both parse under the
semantic-version pattern, `determineUpdateType` compares the parsed
`(major, minor, patch)` triples in that precedence, answering `"major"`,
`"minor"` or `"patch"`, and `"patch"` when the target does not exceed the
current version. -/
theorem SafeSubmoduleUpdater.determineUpdateType_semver
    (cv tv : String) (c t : ℕ × ℕ × ℕ)
    (hc : SafeSubmoduleUpdater.parseSemanticVersion cv = some c)
    (ht : SafeSubmoduleUpdater.parseSemanticVersion tv = some t) :
    SafeSubmoduleUpdater.determineUpdateType (some cv) tv =
      (if t.1 > c.1 then "major"
       else if t.2.1 > c.2.1 then "minor"
       else if t.2.2 > c.2.2 then "patch"
       else "patch") := by
  have hcs : SafeSubmoduleUpdater.isSemanticVersion cv = true := by
    simp [SafeSubmoduleUpdater.isSemanticVersion, SafeSubmoduleUpdater.parseSemanticVersion] at hc ⊢
    simp [hc]
  have hts : SafeSubmoduleUpdater.isSemanticVersion tv = true := by
    simp [SafeSubmoduleUpdater.isSemanticVersion, SafeSubmoduleUpdater.parseSemanticVersion] at ht ⊢
    simp [ht]
  simp only [SafeSubmoduleUpdater.determineUpdateType, hcs, hts, hc, ht]
  simp

/-- Witness for C3: `classify("1.2.3","1.3.0") = minor`,
`classify("1.2.3","2.0.0") = major`, `classify("1.2.3","1.2.3") = patch`. -/
theorem SafeSubmoduleUpdater.determineUpdateType_semver_witness :
    SafeSubmoduleUpdater.determineUpdateType (some ("1.2.3")) ("1.3.0") = "minor" ∧
    SafeSubmoduleUpdater.determineUpdateType (some ("1.2.3")) ("2.0.0") = "major" ∧
    SafeSubmoduleUpdater.determineUpdateType (some ("1.2.3")) ("1.2.3") = "patch" := by
  refine ⟨?_, ?_, ?_⟩
  · have h := SafeSubmoduleUpdater.determineUpdateType_semver ("1.2.3") ("1.3.0") (1, 2, 3) (1, 3, 0) rfl rfl
    simpa using h
  · have h := SafeSubmoduleUpdater.determineUpdateType_semver ("1.2.3") ("2.0.0") (1, 2, 3) (2, 0, 0) rfl rfl
    simpa using h
  · have h := SafeSubmoduleUpdater.determineUpdateType_semver ("1.2.3") ("1.2.3") (1, 2, 3) (1, 2, 3) rfl rfl
    simpa using h

/-- C5: the security gate's score is the count of true checks among the
seven booleans times `100/7`, minus `min(vulnerabilityCount × 5, 30)`,
floored at 0; and the gate passes exactly when that score is at least 90. -/
theorem ProductionQualityGates.evaluateSecurityGate_score_passed
    (c : ProductionQualityGates.SecurityChecks) :
    (ProductionQualityGates.evaluateSecurityGate c).score =
      max 0 ((ProductionQualityGates.securityCheckCount c : ℚ) * (100 / 7) -
        min ((c.vulnerabilityCount : ℚ) * 5) 30) ∧
    ((ProductionQualityGates.evaluateSecurityGate c).passed = true ↔
      (90 : ℚ) ≤ (ProductionQualityGates.evaluateSecurityGate c).score) := by
  have hcount :
      (([c.hasSecurityPolicy, c.secureGitignore, c.hasEnvExample,
         c.noHardcodedSecrets, (c.vulnerabilityCount == 0 : Bool),
         c.httpsEnforced, c.hasAuth].filter (fun b => b)).length : ℕ)
        = ProductionQualityGates.securityCheckCount c := by
    obtain ⟨b1, b2, b3, b4, v, b5, b6⟩ := c
    simp only [ProductionQualityGates.securityCheckCount]
    have hb : (v == 0) = decide (v = 0) := by
      by_cases hv : v = 0 <;> simp [hv]
    by_cases hv : v = 0 <;>
      cases b1 <;> cases b2 <;> cases b3 <;> cases b4 <;> cases b5 <;> cases b6 <;>
      simp [hv, hb, List.filter]
  constructor
  · simp only [ProductionQualityGates.evaluateSecurityGate]
    rw [hcount]
  · simp [ProductionQualityGates.evaluateSecurityGate,
      ProductionQualityGates.criticalGateThreshold]

/-- The critical-gate loop answers true exactly when every critical gate in
the list has a present and passed result. -/
theorem ProductionQualityGates.criticalLoop_iff
    (gs : List ProductionQualityGates.Gate) (r : ProductionQualityGates.GateResults) :
    ProductionQualityGates.criticalLoop gs r = true ↔
      ∀ g ∈ gs, g.critical = true →
        (r.lookup (ProductionQualityGates.gateKeyOf g.name)).map
          ProductionQualityGates.GateResult.passed = some true := by
  induction gs with
  | nil => simp [ProductionQualityGates.criticalLoop]
  | cons g rest ih =>
    by_cases hcrit : g.critical
    · rcases hl : r.lookup (ProductionQualityGates.gateKeyOf g.name) with _ | res
      · simp [ProductionQualityGates.criticalLoop, hcrit, hl]
      · by_cases hp : res.passed
        · simp [ProductionQualityGates.criticalLoop, hcrit, hl, hp, ih]
        · simp [ProductionQualityGates.criticalLoop, hcrit, hl, hp]
    · simp [ProductionQualityGates.criticalLoop, hcrit, ih]

/-- C1: for every evaluation, `canServiceDeploy` is true if and only if the
overall score is at least 80 and every gate of the table marked critical
has a present result with `passed = true`; in particular a single failing
critical gate forces `canDeploy = false` regardless of the overall score. -/
theorem ProductionQualityGates.canServiceDeploy_iff
    (e : ProductionQualityGates.Evaluation) :
    ProductionQualityGates.canServiceDeploy e = true ↔
      ((80 : ℚ) ≤ e.overallScore ∧
        ∀ g ∈ ProductionQualityGates.gates, g.critical = true →
          (e.gateResults.lookup (ProductionQualityGates.gateKeyOf g.name)).map
            ProductionQualityGates.GateResult.passed = some true) := by
  unfold ProductionQualityGates.canServiceDeploy
  by_cases h : e.overallScore < ProductionQualityGates.minimumScore
  · rw [if_pos h]
    have h8 : ¬((80 : ℚ) ≤ e.overallScore) := by
      simpa [ProductionQualityGates.minimumScore, not_le] using h
    simp [h8]
  · rw [if_neg h, ProductionQualityGates.criticalLoop_iff]
    have h8 : (80 : ℚ) ≤ e.overallScore := by
      simpa [ProductionQualityGates.minimumScore, not_lt] using h
    simp [h8]

/-- The accumulation loop adds exactly the present-weighted score (already
divided by 100) and the present weight to the accumulator. -/
theorem ProductionQualityGates.calcLoop_spec
    (results : String → Option ProductionQualityGates.GateResult)
    (gs : List ProductionQualityGates.Gate) (a b : ℚ) :
    ProductionQualityGates.calcLoop results gs (a, b) =
      (a + ProductionQualityGates.presentWeightedScore gs results / 100,
       b + ProductionQualityGates.presentWeight gs results) := by
  induction gs generalizing a b with
  | nil =>
    simp [ProductionQualityGates.calcLoop, ProductionQualityGates.presentWeightedScore,
      ProductionQualityGates.presentWeight]
  | cons g rest ih =>
    rcases hl : results (ProductionQualityGates.gateKeyOf g.name) with _ | r <;>
      simp only [ProductionQualityGates.calcLoop, ProductionQualityGates.presentWeightedScore,
        ProductionQualityGates.presentWeight, hl, ih, Prod.mk.injEq] <;>
      constructor <;> ring

/-- C2: for every gate table and result set with positive present weight,
`calculateOverallScore` equals the weighted mean
`Σ(score × weight) / Σ(weight of gates that produced a result)`, gates
without a result being excluded from both sums. -/
theorem ProductionQualityGates.calculateOverallScore_weightedMean
    (gs : List ProductionQualityGates.Gate)
    (results : String → Option ProductionQualityGates.GateResult)
    (h : 0 < ProductionQualityGates.presentWeight gs results) :
    ProductionQualityGates.calculateOverallScore gs results =
      ProductionQualityGates.presentWeightedScore gs results /
        ProductionQualityGates.presentWeight gs results := by
  have hW : ProductionQualityGates.presentWeight gs results ≠ 0 := ne_of_gt h
  simp only [ProductionQualityGates.calculateOverallScore,
    ProductionQualityGates.calcLoop_spec, zero_add]
  rw [if_pos h]
  field_simp
  ring

/-- Witness for C2: aggregating a score of 100 at weight 25 with a score of
50 at weight 75 yields `62.5 = 125/2`. -/
theorem ProductionQualityGates.calculateOverallScore_weightedMean_witness :
    0 < ProductionQualityGates.presentWeight ProductionQualityGates.exampleGates
        ProductionQualityGates.exampleGateResults ∧
    ProductionQualityGates.calculateOverallScore ProductionQualityGates.exampleGates
        ProductionQualityGates.exampleGateResults = 125 / 2 := by
  have hkA : ProductionQualityGates.gateKeyOf ("A Gate") = "a" := rfl
  have hkB : ProductionQualityGates.gateKeyOf ("B Gate") = "b" := rfl
  have hW : ProductionQualityGates.presentWeight ProductionQualityGates.exampleGates
      ProductionQualityGates.exampleGateResults = 100 := by
    simp [ProductionQualityGates.presentWeight, ProductionQualityGates.exampleGates,
      ProductionQualityGates.exampleGateResults, hkA, hkB]
    norm_num
  have hS : ProductionQualityGates.presentWeightedScore ProductionQualityGates.exampleGates
      ProductionQualityGates.exampleGateResults = 6250 := by
    simp [ProductionQualityGates.presentWeightedScore, ProductionQualityGates.exampleGates,
      ProductionQualityGates.exampleGateResults, hkA, hkB]
    norm_num
  have h : 0 < ProductionQualityGates.presentWeight ProductionQualityGates.exampleGates
      ProductionQualityGates.exampleGateResults := by
    rw [hW]; norm_num
  refine ⟨h, ?_⟩
  rw [ProductionQualityGates.calculateOverallScore_weightedMean _ _ h, hW, hS]
  norm_num

/-- C6: when the classified update type's strategy requires approval and the
context carries no approval, `updateSubmodule` terminates with the
"requires approval" rejection and the world is completely untouched: the
module reference, the parent log and the rollback stack are unchanged, and
in particular no rollback point was pushed. -/
theorem SafeSubmoduleUpdater.updateSubmodule_rejected_needs_approval
    (env : SafeSubmoduleUpdater.Env) (sub tv : String)
    (w : SafeSubmoduleUpdater.World) (s : SafeSubmoduleUpdater.UpdateStrategy)
    (h1 : env.moduleExists = true) (h2 : env.hasUncommitted = false)
    (h3 : env.tagExists tv = true)
    (h4 : SafeSubmoduleUpdater.updateStrategies
      (SafeSubmoduleUpdater.determineUpdateType env.describeVersion tv) = some s)
    (h5 : s.requiresApproval = true) :
    SafeSubmoduleUpdater.updateSubmodule env sub tv w =
      (.error (SafeSubmoduleUpdater.determineUpdateType env.describeVersion tv ++
        " update requires approval"), w) := by
  unfold SafeSubmoduleUpdater.updateSubmodule SafeSubmoduleUpdater.updateAttempt
    SafeSubmoduleUpdater.preUpdateValidation
  simp [h1, h2, h3, h4, h5, SafeSubmoduleUpdater.initialContext,
    SafeSubmoduleUpdater.handleUpdateFailure, SafeSubmoduleUpdater.rollbackUpdate]

/-- Witness for C6: a major update `v1.0.0 → v2.0.0` without approval is
rejected with no change to the world. -/
theorem SafeSubmoduleUpdater.updateSubmodule_rejected_needs_approval_witness :
    SafeSubmoduleUpdater.updateSubmodule SafeSubmoduleUpdater.envMaj ("dashboard")
        ("v2.0.0") SafeSubmoduleUpdater.wMaj =
      (.error ("major update requires approval"), SafeSubmoduleUpdater.wMaj) := by
  have h := SafeSubmoduleUpdater.updateSubmodule_rejected_needs_approval
    SafeSubmoduleUpdater.envMaj ("dashboard") ("v2.0.0") SafeSubmoduleUpdater.wMaj
    ⟨"high", true, true⟩ rfl rfl rfl rfl rfl
  exact h

/-- Counterexample for C7: after one successful restore (here from `wRB`,
whose stack still holds another update's point `qRB`), a second
`rollbackUpdate` on the same context is not a no-op on the rollback
manager's stack — it pops a further entry. -/
theorem SafeSubmoduleUpdater.rollbackUpdate_second_call_changes_stack :
    (SafeSubmoduleUpdater.rollbackUpdate SafeSubmoduleUpdater.envRB
        SafeSubmoduleUpdater.ctxRB SafeSubmoduleUpdater.wRB).1 = .ok () ∧
    (SafeSubmoduleUpdater.rollbackUpdate SafeSubmoduleUpdater.envRB
        SafeSubmoduleUpdater.ctxRB
        ((SafeSubmoduleUpdater.rollbackUpdate SafeSubmoduleUpdater.envRB
          SafeSubmoduleUpdater.ctxRB SafeSubmoduleUpdater.wRB).2)).2.rollbackStack ≠
      ((SafeSubmoduleUpdater.rollbackUpdate SafeSubmoduleUpdater.envRB
        SafeSubmoduleUpdater.ctxRB SafeSubmoduleUpdater.wRB).2).rollbackStack :=
  ⟨rfl, by decide⟩

/-- C7 (amended): after one successful restore, a second `rollbackUpdate`
on the same context succeeds and leaves the module reference and the parent
log unchanged (the parent reset is skipped because the current parent
reference equals the snapshot), but it pops one further entry from the
rollback stack — a full no-op only when the stack is already empty.  The
hypothesis admits the two normal pre-restore parent states: unchanged, or
advanced by exactly the one commit the reset undoes. -/
theorem SafeSubmoduleUpdater.rollbackUpdate_second_call
    (env : SafeSubmoduleUpdater.Env) (ctx : SafeSubmoduleUpdater.UpdateContext)
    (w0 : SafeSubmoduleUpdater.World) (p : SafeSubmoduleUpdater.RollbackPoint)
    (hp : ctx.rollbackPoint = some p)
    (hparent : w0.parentHead = p.parentCommit ∨
      (w0.parentHead ≠ p.parentCommit ∧ w0.parentLog.tail.headD "" = p.parentCommit)) :
    (SafeSubmoduleUpdater.rollbackUpdate env ctx
        ((SafeSubmoduleUpdater.rollbackUpdate env ctx w0).2)).1 = .ok () ∧
    (SafeSubmoduleUpdater.rollbackUpdate env ctx
        ((SafeSubmoduleUpdater.rollbackUpdate env ctx w0).2)).2.moduleRef =
      ((SafeSubmoduleUpdater.rollbackUpdate env ctx w0).2).moduleRef ∧
    (SafeSubmoduleUpdater.rollbackUpdate env ctx
        ((SafeSubmoduleUpdater.rollbackUpdate env ctx w0).2)).2.parentLog =
      ((SafeSubmoduleUpdater.rollbackUpdate env ctx w0).2).parentLog ∧
    (SafeSubmoduleUpdater.rollbackUpdate env ctx
        ((SafeSubmoduleUpdater.rollbackUpdate env ctx w0).2)).2.rollbackStack =
      ((SafeSubmoduleUpdater.rollbackUpdate env ctx w0).2).rollbackStack.dropLast := by
  rcases hparent with h | ⟨h1, h2⟩
  · have hh : w0.parentLog.head?.getD "" = p.parentCommit := by
      simpa [SafeSubmoduleUpdater.World.parentHead] using h
    simp [SafeSubmoduleUpdater.rollbackUpdate, hp, SafeSubmoduleUpdater.World.parentHead, hh]
  · have hh1 : ¬(w0.parentLog.head?.getD "" = p.parentCommit) := by
      simpa [SafeSubmoduleUpdater.World.parentHead] using h1
    have hh2 : w0.parentLog[1]?.getD "" = p.parentCommit := by
      simpa [SafeSubmoduleUpdater.World.parentHead] using h2
    simp [SafeSubmoduleUpdater.rollbackUpdate, hp, SafeSubmoduleUpdater.World.parentHead,
      hh1, hh2]

/-- Witness for C7's amended theorem: the concrete scenario of the
counterexample satisfies its hypotheses. -/
theorem SafeSubmoduleUpdater.rollbackUpdate_second_call_witness :
    SafeSubmoduleUpdater.ctxRB.rollbackPoint = some SafeSubmoduleUpdater.pRB ∧
    ((SafeSubmoduleUpdater.rollbackUpdate SafeSubmoduleUpdater.envRB
        SafeSubmoduleUpdater.ctxRB
        ((SafeSubmoduleUpdater.rollbackUpdate SafeSubmoduleUpdater.envRB
          SafeSubmoduleUpdater.ctxRB SafeSubmoduleUpdater.wRB).2)).1 = .ok () ∧
    (SafeSubmoduleUpdater.rollbackUpdate SafeSubmoduleUpdater.envRB
        SafeSubmoduleUpdater.ctxRB
        ((SafeSubmoduleUpdater.rollbackUpdate SafeSubmoduleUpdater.envRB
          SafeSubmoduleUpdater.ctxRB SafeSubmoduleUpdater.wRB).2)).2.moduleRef =
      ((SafeSubmoduleUpdater.rollbackUpdate SafeSubmoduleUpdater.envRB
        SafeSubmoduleUpdater.ctxRB SafeSubmoduleUpdater.wRB).2).moduleRef ∧
    (SafeSubmoduleUpdater.rollbackUpdate SafeSubmoduleUpdater.envRB
        SafeSubmoduleUpdater.ctxRB
        ((SafeSubmoduleUpdater.rollbackUpdate SafeSubmoduleUpdater.envRB
          SafeSubmoduleUpdater.ctxRB SafeSubmoduleUpdater.wRB).2)).2.parentLog =
      ((SafeSubmoduleUpdater.rollbackUpdate SafeSubmoduleUpdater.envRB
        SafeSubmoduleUpdater.ctxRB SafeSubmoduleUpdater.wRB).2).parentLog ∧
    (SafeSubmoduleUpdater.rollbackUpdate SafeSubmoduleUpdater.envRB
        SafeSubmoduleUpdater.ctxRB
        ((SafeSubmoduleUpdater.rollbackUpdate SafeSubmoduleUpdater.envRB
          SafeSubmoduleUpdater.ctxRB SafeSubmoduleUpdater.wRB).2)).2.rollbackStack =
      ((SafeSubmoduleUpdater.rollbackUpdate SafeSubmoduleUpdater.envRB
        SafeSubmoduleUpdater.ctxRB SafeSubmoduleUpdater.wRB).2).rollbackStack.dropLast) :=
  ⟨rfl, SafeSubmoduleUpdater.rollbackUpdate_second_call SafeSubmoduleUpdater.envRB
    SafeSubmoduleUpdater.ctxRB SafeSubmoduleUpdater.wRB SafeSubmoduleUpdater.pRB
    rfl (Or.inl rfl)⟩

/-- Counterexample for C9: in the `envQF` scenario a critical quality-gate
failure occurs after the rollback point exists, the rollback succeeds (the
final world equals the starting world exactly: module reference restored,
no parent commit, stack popped) — and yet the originating gate-failure
error still escapes `updateSubmodule` to the caller. -/
theorem SafeSubmoduleUpdater.updateSubmodule_error_propagates :
    (SafeSubmoduleUpdater.updateSubmodule SafeSubmoduleUpdater.envQF ("svc")
        ("v1.0.1") SafeSubmoduleUpdater.wQF).1 =
      .error ("Quality gate failures: security") ∧
    (SafeSubmoduleUpdater.updateSubmodule SafeSubmoduleUpdater.envQF ("svc")
        ("v1.0.1") SafeSubmoduleUpdater.wQF).2 = SafeSubmoduleUpdater.wQF :=
  ⟨rfl, by decide⟩

/-- C9 (amended): whenever the update attempt throws, `updateSubmodule`
invokes the rollback manager (the returned world is exactly the world
`rollbackUpdate` produces, and `rollbackUpdate` succeeds whenever a rollback
point exists) and then rethrows the originating error to the caller — it
does so whether or not the rollback succeeded, and a rollback failure is
swallowed by `handleUpdateFailure`, so a RollbackError never escapes. -/
theorem SafeSubmoduleUpdater.updateSubmodule_failure_rethrows
    (env : SafeSubmoduleUpdater.Env) (sub tv : String)
    (w : SafeSubmoduleUpdater.World) (e : String)
    (ctx1 : SafeSubmoduleUpdater.UpdateContext) (w1 : SafeSubmoduleUpdater.World)
    (h : SafeSubmoduleUpdater.updateAttempt env
      (SafeSubmoduleUpdater.initialContext sub tv) w = (.error e, ctx1, w1)) :
    (SafeSubmoduleUpdater.updateSubmodule env sub tv w).1 = .error e ∧
    (SafeSubmoduleUpdater.updateSubmodule env sub tv w).2 =
      (SafeSubmoduleUpdater.rollbackUpdate env ctx1 w1).2 ∧
    (∀ p, ctx1.rollbackPoint = some p →
      (SafeSubmoduleUpdater.rollbackUpdate env ctx1 w1).1 = .ok ()) := by
  refine ⟨?_, ?_, ?_⟩
  · unfold SafeSubmoduleUpdater.updateSubmodule
    rw [h]
  · unfold SafeSubmoduleUpdater.updateSubmodule
    rw [h]
    rfl
  · intro p hp
    simp [SafeSubmoduleUpdater.rollbackUpdate, hp]

/-- Witness for C9's amended theorem: the failing patch update of the
`envQF` scenario. -/
theorem SafeSubmoduleUpdater.updateSubmodule_failure_rethrows_witness :
    SafeSubmoduleUpdater.updateAttempt SafeSubmoduleUpdater.envQF
        (SafeSubmoduleUpdater.initialContext ("svc") ("v1.0.1"))
        SafeSubmoduleUpdater.wQF =
      (.error ("Quality gate failures: security"), SafeSubmoduleUpdater.ctxQF,
        SafeSubmoduleUpdater.wQF1) ∧
    ((SafeSubmoduleUpdater.updateSubmodule SafeSubmoduleUpdater.envQF ("svc")
        ("v1.0.1") SafeSubmoduleUpdater.wQF).1 =
      .error ("Quality gate failures: security") ∧
    (SafeSubmoduleUpdater.updateSubmodule SafeSubmoduleUpdater.envQF ("svc")
        ("v1.0.1") SafeSubmoduleUpdater.wQF).2 =
      (SafeSubmoduleUpdater.rollbackUpdate SafeSubmoduleUpdater.envQF
        SafeSubmoduleUpdater.ctxQF SafeSubmoduleUpdater.wQF1).2 ∧
    (∀ p, SafeSubmoduleUpdater.ctxQF.rollbackPoint = some p →
      (SafeSubmoduleUpdater.rollbackUpdate SafeSubmoduleUpdater.envQF
        SafeSubmoduleUpdater.ctxQF SafeSubmoduleUpdater.wQF1).1 = .ok ())) :=
  ⟨rfl, SafeSubmoduleUpdater.updateSubmodule_failure_rethrows
    SafeSubmoduleUpdater.envQF ("svc") ("v1.0.1") SafeSubmoduleUpdater.wQF
    ("Quality gate failures: security") SafeSubmoduleUpdater.ctxQF
    SafeSubmoduleUpdater.wQF1 rfl⟩

/-- C8: the batch scheduler never reaches risk-ordered execution — for any
batch of at least two requests, the sort comparator evaluates
`updateStrategies[determineUpdateTypeSync(...)]` with the placeholder type
`'medium'`, which is not a key of the strategy table, and the resulting
`TypeError` escapes `batchUpdate` before any request is executed. -/
theorem SafeSubmoduleUpdater.batchUpdate_sort_type_error
    (envOf : SafeSubmoduleUpdater.UpdateRequest → SafeSubmoduleUpdater.Env)
    (u v : SafeSubmoduleUpdater.UpdateRequest)
    (rest : List SafeSubmoduleUpdater.UpdateRequest)
    (stopOnError : Bool) (w : SafeSubmoduleUpdater.World) :
    SafeSubmoduleUpdater.batchUpdate envOf (u :: v :: rest) stopOnError w =
      .error ("TypeError: Cannot read properties of undefined") := rfl

/-- C10: `evaluateServiceGates` is total (it returns an evaluation for every
environment, never throwing), and whenever one of the five internal gate
evaluations raises, the returned evaluation carries exactly the message
`"Quality gate evaluation failed: <error>"` in `criticalFailures` and has
`canDeploy = false`. -/
theorem ProductionQualityGates.evaluateServiceGates_catch
    (env : ProductionQualityGates.ServiceGateEnv) (e : String)
    (h : ProductionQualityGates.firstGateError env = some e) :
    (ProductionQualityGates.evaluateServiceGates env).canDeploy = false ∧
    (ProductionQualityGates.evaluateServiceGates env).criticalFailures =
      ["Quality gate evaluation failed: " ++ e] := by
  rcases env with ⟨sec, sta, per, con, dep⟩
  cases sec with
  | error e1 =>
    simp [ProductionQualityGates.firstGateError] at h
    subst h
    simp [ProductionQualityGates.evaluateServiceGates,
      ProductionQualityGates.initialEvaluation]
  | ok r1 =>
    cases sta with
    | error e1 =>
      simp [ProductionQualityGates.firstGateError] at h
      subst h
      simp [ProductionQualityGates.evaluateServiceGates,
        ProductionQualityGates.initialEvaluation]
    | ok r2 =>
      cases per with
      | error e1 =>
        simp [ProductionQualityGates.firstGateError] at h
        subst h
        simp [ProductionQualityGates.evaluateServiceGates,
          ProductionQualityGates.initialEvaluation]
      | ok r3 =>
        cases con with
        | error e1 =>
          simp [ProductionQualityGates.firstGateError] at h
          subst h
          simp [ProductionQualityGates.evaluateServiceGates,
            ProductionQualityGates.initialEvaluation]
        | ok r4 =>
          cases dep with
          | error e1 =>
            simp [ProductionQualityGates.firstGateError] at h
            subst h
            simp [ProductionQualityGates.evaluateServiceGates,
              ProductionQualityGates.initialEvaluation]
          | ok r5 =>
            simp [ProductionQualityGates.firstGateError] at h

/-- Witness for C10: an environment whose security evaluation throws
`"boom"`. -/
theorem ProductionQualityGates.evaluateServiceGates_catch_witness :
    ProductionQualityGates.firstGateError ProductionQualityGates.envSG =
      some ("boom") ∧
    ((ProductionQualityGates.evaluateServiceGates
        ProductionQualityGates.envSG).canDeploy = false ∧
     (ProductionQualityGates.evaluateServiceGates
        ProductionQualityGates.envSG).criticalFailures =
      ["Quality gate evaluation failed: boom"]) := by
  refine ⟨rfl, ?_⟩
  have h := ProductionQualityGates.evaluateServiceGates_catch
    ProductionQualityGates.envSG ("boom") rfl
  simpa using h
